import Mathlib

/-
Verification of the signalstory store core (packages/signalstory/src/lib/store.ts)
against its natural-language specification.

The store is embedded with explicit state passing: the Angular `WritableSignal`
becomes a plain field, mutation methods become functions from an environment
(store + durable storage + log sink output) to a new environment.  Feature
flags of type `boolean | undefined` become `Option Bool`; the TypeScript
truthiness test `if (config.flag)` and the resolution `config.flag ?? false`
both become `Option.getD · false`.  JavaScript truthiness of a *state* value
(the `if (newState)` tests in `undo`/`redo`) is embedded by a parameter
`fals : TState → Bool` telling which values of the state type are JS-falsy
(for `number`, `0` is falsy; for object types nothing is).

Components whose source files are not part of the provided sources
(store-history.ts, mediator.ts, store-persistence.ts, the plugin invocation
machinery) are modelled from the specification; their doc comments say so.
-/

namespace Signalstory

/-- A log entry emitted through the console sink: store name, context label,
action label (`logWithGeneralStore` in store.ts). -/
structure LogEntry where
  store : String
  context : String
  action : String
deriving DecidableEq, Repr

/-- The raw configuration record passed to the `Store` constructor
(store-config.ts interface as used by store.ts); optional fields are `Option`. -/
structure StoreConfig (TState : Type) where
  name : Option String
  initialState : TState
  enableEvents : Option Bool
  enableEffectsAndQueries : Option Bool
  enableLogging : Option Bool
  enableStateHistory : Option Bool
  enableLocalStorageSync : Option Bool

/-- The resolved configuration `this.config` built in the constructor of
store.ts (lines 59-67): every option defaulted. -/
structure ResolvedConfig (TState : Type) where
  name : String
  initialState : TState
  enableEvents : Bool
  enableEffectsAndQueries : Bool
  enableLogging : Bool
  enableStateHistory : Bool
  enableLocalStorageSync : Bool

/-- Stand-in for `this.constructor.name`, the type-derived default store name. -/
def defaultStoreName : String := "Store"

/-- Resolution of the raw config exactly as in the constructor:
each `x ?? default`. -/
def resolveConfig {TState : Type} (cfg : StoreConfig TState) : ResolvedConfig TState :=
  { name := cfg.name.getD defaultStoreName
    initialState := cfg.initialState
    enableEvents := cfg.enableEvents.getD false
    enableEffectsAndQueries := cfg.enableEffectsAndQueries.getD false
    enableLogging := cfg.enableLogging.getD false
    enableStateHistory := cfg.enableStateHistory.getD false
    enableLocalStorageSync := cfg.enableLocalStorageSync.getD false }

/-- Modelled from the spec: store-history.ts is not among the provided sources.
A history entry `{ state, commandLabel }` (spec section 3, "History Entry"). -/
structure HistoryItem (TState : Type) where
  state : TState
  command : String
deriving DecidableEq, Repr

/-- Modelled from the spec: store-history.ts is not among the provided sources.
The two-stack undo/redo ledger, both stacks empty at creation (spec section 4.2). -/
structure StoreHistory (TState : Type) where
  undoStack : List (HistoryItem TState)
  redoStack : List (HistoryItem TState)
deriving DecidableEq, Repr

/-- The empty history a store starts with. -/
def StoreHistory.empty (TState : Type) : StoreHistory TState := ⟨[], []⟩

/-- Modelled from the spec (section 4.2): `add(stateBeforeChange, commandLabel)`
pushes the entry onto the undo-stack and clears the redo-stack. -/
def StoreHistory.add {TState : Type} (h : StoreHistory TState) (s : TState)
    (label : String) : StoreHistory TState :=
  { undoStack := ⟨s, label⟩ :: h.undoStack, redoStack := [] }

/-- Modelled from the spec (section 4.2): `undo(currentState)` pops the
undo-stack (absent if empty), pushes the current state onto the redo-stack and
returns the popped snapshot; it returns the new stacks as well since the
TypeScript object mutates itself in place. -/
def StoreHistory.undo {TState : Type} (h : StoreHistory TState) (current : TState) :
    Option TState × StoreHistory TState :=
  match h.undoStack with
  | [] => (none, h)
  | e :: rest =>
    (some e.state,
     { undoStack := rest, redoStack := ⟨current, e.command⟩ :: h.redoStack })

/-- Modelled from the spec (section 4.2): `redo(currentState)` pops the
redo-stack (absent if empty), pushes the current state onto the undo-stack and
returns the popped snapshot. -/
def StoreHistory.redo {TState : Type} (h : StoreHistory TState) (current : TState) :
    Option TState × StoreHistory TState :=
  match h.redoStack with
  | [] => (none, h)
  | e :: rest =>
    (some e.state,
     { undoStack := ⟨current, e.command⟩ :: h.undoStack, redoStack := rest })

/-- Modelled from the spec: store-persistence.ts is not among the provided
sources.  The durable key/value backend, keyed by store name (spec sections
4.5 and 6); the encode/decode step is unspecified by the core, so values are
kept typed. -/
def Storage (TState : Type) : Type := String → Option TState

/-- Modelled from the spec (section 4.5): `load(name)` returns the persisted
state or absent. -/
def loadFromStorage {TState : Type} (st : Storage TState) (name : String) :
    Option TState := st name

/-- Modelled from the spec (section 4.5): `save(name, state)` overwrites the
entry under `name`. -/
def saveToStorage {TState : Type} (st : Storage TState) (name : String)
    (s : TState) : Storage TState :=
  fun k => if k = name then some s else st k

/-- Modelled from the spec (section 4.5): `clear(name)` removes the entry
under `name`. -/
def clearLocalStorage {TState : Type} (st : Storage TState) (name : String) :
    Storage TState :=
  fun k => if k = name then none else st k

/-- The opaque handle obtained by `inject(Injector)` in the constructor; its
only role in this core is to be present or absent. -/
abbrev InjCtx : Type := Unit

/-- The state of one `Store<TState>` instance: resolved config, optional
history, optional injection context, current signal value. -/
structure Store (TState : Type) where
  config : ResolvedConfig TState
  history : Option (StoreHistory TState)
  injector : Option InjCtx
  state : TState

/-- A store together with the external world it touches on state changes:
the durable storage backend and the accumulated console log (newest last). -/
structure Env (TState : Type) where
  store : Store TState
  storage : Storage TState
  logs : List LogEntry

/-- `logWithGeneralStore` of store.ts: append a console entry attributed to
`storeName`, but only when logging is enabled for this store. -/
def Env.logWith {TState : Type} (env : Env TState) (storeName context action : String) :
    Env TState :=
  if env.store.config.enableLogging then
    { env with logs := env.logs ++ [⟨storeName, context, action⟩] }
  else env

/-- `log` of store.ts: `logWithGeneralStore` under this store's own name. -/
def Env.log {TState : Type} (env : Env TState) (context action : String) : Env TState :=
  env.logWith env.store.config.name context action

/-- `Store.addToHistory` (store.ts lines 343-347): if history is present, add
the current (pre-mutation) state under `commandName ?? 'Unspecified'`. -/
def Store.addToHistory {TState : Type} (st : Store TState)
    (commandName : Option String) : Store TState :=
  match st.history with
  | some h => { st with history := some (h.add st.state (commandName.getD "Unspecified")) }
  | none => st

/-- The effect of `this._state.set(...)` (or `.update`/`.mutate`): replace the
signal value; the `effect` registered in the constructor (store.ts lines 80-82)
then saves the new state to storage when persistence is enabled. -/
def Env.commitState {TState : Type} (env : Env TState) (s : TState) : Env TState :=
  { env with
    store := { env.store with state := s }
    storage :=
      if env.store.config.enableLocalStorageSync then
        saveToStorage env.storage env.store.config.name s
      else env.storage }

/-- `Store.set` (store.ts lines 124-132): record history, replace the state
(triggering the persistence effect), log the command under
`commandName ?? 'unspecified command'`. -/
def Env.set {TState : Type} (env : Env TState) (newState : TState)
    (commandName : Option String) : Env TState :=
  let env1 := { env with store := env.store.addToHistory commandName }
  let env2 := env1.commitState newState
  env2.log "Command" (commandName.getD "unspecified command")

/-- `Store.update` (store.ts lines 139-150): like `set` but the new state is
`updateFn` applied to the signal's current value at update time. -/
def Env.update {TState : Type} (env : Env TState) (updateFn : TState → TState)
    (commandName : Option String) : Env TState :=
  let env1 := { env with store := env.store.addToHistory commandName }
  let env2 := env1.commitState (updateFn env1.store.state)
  env2.log "Command" (commandName.getD "unspecified command")

/-- `Store.mutate` (store.ts lines 157-165): the destructive mutator is
embedded by the function from the old value to the resulting value that the
reactive primitive ends up exposing. -/
def Env.mutate {TState : Type} (env : Env TState) (mutator : TState → TState)
    (commandName : Option String) : Env TState :=
  let env1 := { env with store := env.store.addToHistory commandName }
  let env2 := env1.commitState (mutator env1.store.state)
  env2.log "Command" (commandName.getD "unspecified command")

/-- JavaScript truthiness of `TState | undefined`: `undefined` is falsy, a
present value is truthy unless `fals` says the value itself is falsy. -/
def jsTruthy {TState : Type} (fals : TState → Bool) : Option TState → Bool
  | none => false
  | some v => !fals v

/-- `Store.undo` (store.ts lines 260-279).  Note the source guards the
restoration with the truthiness test `if (newState)` on the snapshot itself,
not with a presence test; `fals` supplies JS truthiness for `TState`.  The
history object has already been mutated by `history.undo` when the test runs. -/
def Env.undo {TState : Type} (fals : TState → Bool) (env : Env TState) : Env TState :=
  match env.store.history with
  | none =>
    env.log "Undo" "Attempted to perform an undo action, but enableStateHistory is not active"
  | some h =>
    let res := h.undo env.store.state
    let env1 : Env TState := { env with store := { env.store with history := some res.2 } }
    if jsTruthy fals res.1 then
      match res.1 with
      | some v => (env1.log "Undo" "Performed an undo action").commitState v
      | none => env1
    else
      env1.log "Undo" "Attempted to perform an undo action but the state history is empty"

/-- `Store.redo` (store.ts lines 284-304), with the same truthiness guard
`if (newState)`; on success the state is set first, then the action logged. -/
def Env.redo {TState : Type} (fals : TState → Bool) (env : Env TState) : Env TState :=
  match env.store.history with
  | none =>
    env.log "Redo" "Attempted to perform a redo action, but enableStateHistory is not active"
  | some h =>
    let res := h.redo env.store.state
    let env1 : Env TState := { env with store := { env.store with history := some res.2 } }
    if jsTruthy fals res.1 then
      match res.1 with
      | some v => (env1.commitState v).log "Redo" "Performed a redo action"
      | none => env1
    else
      env1.log "Redo" "Attempted to perform a redo action, but the prior action was not an undo action"

/-- `Store.clearPersistence` (store.ts lines 115-117): remove the persisted
entry under this store's name; nothing else is touched. -/
def Env.clearPersistence {TState : Type} (env : Env TState) : Env TState :=
  { env with storage := clearLocalStorage env.storage env.store.config.name }

/-- Modelled from the spec: mediator.ts is not among the provided sources.
One handler registration `{ eventIdentity, sourceName, handlerFn }` (spec
section 3); the application handler function is represented by an identity. -/
structure Registration where
  event : String
  source : String
  handlerId : Nat
deriving DecidableEq, Repr

/-- Modelled from the spec (section 4.3): the process-wide publish/subscribe
registry — registrations in insertion order, plus the replay ledger of past
publications in publish order (payloads taken as `Nat`). -/
structure Mediator where
  registrations : List Registration
  ledger : List (String × Nat)
deriving DecidableEq, Repr

/-- A freshly constructed mediator. -/
def Mediator.empty : Mediator := ⟨[], []⟩

/-- Modelled from the spec (section 4.3): `register` appends the registration
to the list for the event's identity. -/
def Mediator.register (m : Mediator) (event source : String) (handlerId : Nat) :
    Mediator :=
  { m with registrations := m.registrations ++ [⟨event, source, handlerId⟩] }

/-- Modelled from the spec (section 4.3): `publish` runs every matching
handler in registration order, appends the payload to the ledger, and returns
the ordered source names whose handlers ran. -/
def Mediator.publish (m : Mediator) (event : String) (payload : Nat) :
    List String × Mediator :=
  ((m.registrations.filter (fun r => r.event == event)).map Registration.source,
   { m with ledger := m.ledger ++ [(event, payload)] })

/-- Modelled from the spec (section 4.3): `replay(source)` delivers, for every
registration belonging to `source`, that event's ledger of past payloads in
original publish order; the result lists the (handlerId, payload) deliveries. -/
def Mediator.replay (m : Mediator) (source : String) : List (Nat × Nat) :=
  (m.registrations.filter (fun r => r.source == source)).flatMap
    (fun r => (m.ledger.filter (fun e => e.1 == r.event)).map (fun e => (r.handlerId, e.2)))

/-- The static accessor `StoreBase.mediator` (store.ts lines 27-34): return
the process-wide instance, creating it lazily if absent; the second component
is the global slot after the access. -/
def mediatorAccessor (g : Option Mediator) : Mediator × Option Mediator :=
  match g with
  | none => (Mediator.empty, some Mediator.empty)
  | some m => (m, some m)

/-- The `StoreBase` constructor (store.ts lines 36-40): create the mediator
eagerly iff events are enabled and no instance exists yet. -/
def storeBaseConstruct (enableEvents : Bool) (g : Option Mediator) : Option Mediator :=
  if enableEvents && g.isNone then some Mediator.empty else g

/-- The `Store` constructor (store.ts lines 57-95) over an explicit global
mediator slot: resolve the config, create the history iff
`config.enableStateHistory`, grab an injection context iff
`config.enableEffectsAndQueries`, and initialize the state from the persisted
entry (falling back to `initialState` via `??`) when persistence is enabled,
logging the corresponding init notice. -/
def construct {TState : Type} (cfg : StoreConfig TState) (storage : Storage TState)
    (g : Option Mediator) : Env TState × Option Mediator :=
  let g1 := storeBaseConstruct (cfg.enableEvents.getD false) g
  let rc := resolveConfig cfg
  let history : Option (StoreHistory TState) :=
    if cfg.enableStateHistory.getD false then some (StoreHistory.empty TState) else none
  let injector : Option InjCtx :=
    if cfg.enableEffectsAndQueries.getD false then some () else none
  if cfg.enableLocalStorageSync.getD false then
    let persistedState := loadFromStorage storage rc.name
    let st : Store TState :=
      { config := rc, history := history, injector := injector
        state := persistedState.getD cfg.initialState }
    let env : Env TState := { store := st, storage := storage, logs := [] }
    (env.log "Init"
      (if persistedState.isSome then "Store initialized from local storage"
       else "local storage is empty; store initialized using configured initial state"), g1)
  else
    let st : Store TState :=
      { config := rc, history := history, injector := injector, state := cfg.initialState }
    let env : Env TState := { store := st, storage := storage, logs := [] }
    (env.log "Init" "Store initialized", g1)

/-- Construction ignoring the mediator slot, for the claims that do not
involve events. -/
def mkEnv {TState : Type} (cfg : StoreConfig TState) (storage : Storage TState) :
    Env TState :=
  (construct cfg storage none).1

/-- `Store.registerHandler` (store.ts lines 173-187): register through the
static mediator accessor under this store's name, optionally replay, and log
the registration; returns the new global slot and the replayed deliveries. -/
def Env.registerHandler {TState : Type} (env : Env TState) (g : Option Mediator)
    (event : String) (handlerId : Nat) (withReplay : Bool) :
    Env TState × Option Mediator × List (Nat × Nat) :=
  let source := env.store.config.name
  let m := (mediatorAccessor g).1
  let m1 := m.register event source handlerId
  let replayed := if withReplay then m1.replay source else []
  (env.log "Init" ("Register handler for event " ++ event), some m1, replayed)

/-- `Store.publish` (store.ts lines 194-209): optionally log the publication,
publish through the static mediator accessor, and attribute a handled-event
log line to each executed handler source; returns the new global slot and the
executed source names. -/
def Env.publish {TState : Type} (env : Env TState) (g : Option Mediator)
    (event : String) (payload : Nat) :
    Env TState × Option Mediator × List String :=
  let env1 :=
    if env.store.config.enableLogging then env.log "Event" ("Publish event " ++ event)
    else env
  let m := (mediatorAccessor g).1
  let res := m.publish event payload
  let env2 := res.1.foldl (fun e src => e.logWith src "Handler" "Handled Event") env1
  (env2, some res.2, res.1)

/-- The error taxonomy entry relevant to `runQuery` (spec section 7). -/
inductive StoreError where
  | configurationError
deriving DecidableEq, Repr

/-- Modelled from the spec (section 6): the external execution-context
provider.  Given a callback, it runs it so that collaborator resolution is
possible inside; with no configured context the run fails — store.ts passes
`this.injector!` straight through, so the absence surfaces here as the
`ConfigurationError` of the spec's taxonomy. -/
def runInInjectionContext {A : Type} (inj : Option InjCtx) (f : InjCtx → A) :
    Except StoreError A :=
  match inj with
  | none => Except.error StoreError.configurationError
  | some c => Except.ok (f c)

/-- A store query (store-query.ts is not among the provided sources): its
dependency resolution and body are abstracted into one function of the
execution context. -/
structure StoreQuery (TResult : Type) where
  run : InjCtx → TResult

/-- `Store.runQuery` (store.ts lines 235-255): run the query's resolution and
body inside the store's injection context, which the source asserts non-null
(`this.injector!`). -/
def Store.runQuery {TState TResult : Type} (st : Store TState)
    (storeQuery : StoreQuery TResult) : Except StoreError TResult :=
  runInInjectionContext st.injector (fun c => storeQuery.run c)

/- Helper lemmas (shared). -/

/-- Logging never touches the store component. -/
theorem Env.logWith_store {TState : Type} (env : Env TState) (n c a : String) :
    (env.logWith n c a).store = env.store := by
  unfold Env.logWith; split <;> rfl

/-- Logging never touches the storage component. -/
theorem Env.logWith_storage {TState : Type} (env : Env TState) (n c a : String) :
    (env.logWith n c a).storage = env.storage := by
  unfold Env.logWith; split <;> rfl

/-- Logging only appends to the log. -/
theorem Env.logWith_logs {TState : Type} (env : Env TState) (n c a : String) :
    ∃ t, (env.logWith n c a).logs = env.logs ++ t := by
  unfold Env.logWith; split
  · exact ⟨[⟨n, c, a⟩], rfl⟩
  · exact ⟨[], (List.append_nil _).symm⟩

/-- `log` in terms of `logWith`: store untouched. -/
theorem Env.log_store {TState : Type} (env : Env TState) (c a : String) :
    (env.log c a).store = env.store :=
  env.logWith_store _ c a

/-- `log` in terms of `logWith`: storage untouched. -/
theorem Env.log_storage {TState : Type} (env : Env TState) (c a : String) :
    (env.log c a).storage = env.storage :=
  env.logWith_storage _ c a

/-- `log` in terms of `logWith`: only appends to the log. -/
theorem Env.log_logs {TState : Type} (env : Env TState) (c a : String) :
    ∃ t, (env.log c a).logs = env.logs ++ t :=
  env.logWith_logs _ c a

/- Claim theorems. -/

/-- The JS falsiness of the `number` state type: `0` is falsy. -/
def intFalsy : Int → Bool := fun n => n == 0

/-- An empty durable backend over `Int` states. -/
def stNoneInt : Storage Int := fun _ => none

/-- A counter store configuration: history enabled, initial state `0`. -/
def cfgC1 : StoreConfig Int :=
  ⟨some "counter", 0, none, none, none, some true, none⟩

/-- C1: the claim says that whenever the history reports an applicable prior
snapshot, `undo` replaces the state with it regardless of the snapshot's
value.  The code instead guards the restoration with JS truthiness of the
snapshot (`if (newState)`, store.ts line 269): for a counter store
(initial state `0`), after `set(1, 'inc')` a single `undo` pops the snapshot
`0` from the history but leaves the state at `1`, because `0` is falsy —
even though the history did hold an applicable entry (the redo-stack now
holds the displaced state, showing the pop happened).  This contradicts the
code's own doc comment and its "history is empty" log message. -/
theorem undo_truthiness_bug :
    (Env.undo intFalsy ((mkEnv cfgC1 stNoneInt).set 1 (some "inc"))).store.state = 1
    ∧ (Env.undo intFalsy ((mkEnv cfgC1 stNoneInt).set 1 (some "inc"))).store.history
        = some ⟨[], [⟨1, "inc"⟩]⟩ := by
  decide

/-- A store configuration with history enabled and a truthy initial state. -/
def cfgC6 : StoreConfig Int :=
  ⟨some "s6", 1, none, none, none, some true, none⟩

/-- C6: the claim says `redo` immediately after `undo` restores the state
present before the undo.  With initial state `1`, after `set(0)` the state is
`0`; `undo` restores `1`; the subsequent `redo` pops the snapshot `0` from
the redo-stack but the truthiness guard (`if (newState)`, store.ts line 293)
rejects the falsy value `0`, so the state stays `1` instead of returning to
`0`, and the code logs "the prior action was not an undo action" although it
was. -/
theorem redo_truthiness_bug :
    ((mkEnv cfgC6 stNoneInt).set 0 none).store.state = 0
    ∧ (Env.undo intFalsy ((mkEnv cfgC6 stNoneInt).set 0 none)).store.state = 1
    ∧ (Env.redo intFalsy (Env.undo intFalsy ((mkEnv cfgC6 stNoneInt).set 0 none))).store.state
        = 1 := by
  decide

/-- A store configuration used for the history-label counterexample. -/
def cfgC4 : StoreConfig Int :=
  ⟨some "s4", 0, none, none, none, some true, none⟩

/-- C4 counterexample: the claim says a `set` call that omits `commandName`
records the snapshot under the default label "unspecified command".  The code
(store.ts line 345) records it under `commandName ?? 'Unspecified'`: after
`set(5)` on a fresh store the single history entry carries the label
"Unspecified", which is not "unspecified command" (that string is only the
default used for the console log line, store.ts line 129). -/
theorem history_label_counterexample :
    ((mkEnv cfgC4 stNoneInt).set 5 none).store.history
        = some ⟨[⟨0, "Unspecified"⟩], []⟩
    ∧ "Unspecified" ≠ "unspecified command" := by
  decide

/-- C4 amended: with history enabled, a `set`/`update`/`mutate` call that
omits `commandName` records the pre-mutation state into the history under the
default label "Unspecified" (the label "unspecified command" is only the
logging default). -/
theorem history_default_label {TState : Type} (env : Env TState)
    (h0 : StoreHistory TState) (hh : env.store.history = some h0)
    (s : TState) (f g : TState → TState) :
    (env.set s none).store.history
        = some ⟨⟨env.store.state, "Unspecified"⟩ :: h0.undoStack, []⟩
    ∧ (env.update f none).store.history
        = some ⟨⟨env.store.state, "Unspecified"⟩ :: h0.undoStack, []⟩
    ∧ (env.mutate g none).store.history
        = some ⟨⟨env.store.state, "Unspecified"⟩ :: h0.undoStack, []⟩ := by
  obtain ⟨⟨cfg, hist, inj, s0⟩, stg, lg⟩ := env
  simp only [Env.set, Env.update, Env.mutate, Store.addToHistory] at *
  subst hh
  refine ⟨?_, ?_, ?_⟩ <;>
    simp [Env.log, Env.logWith, Env.commitState, StoreHistory.add] <;>
    split <;> rfl

/-- Witness for the C4 amended theorem at a concrete store. -/
theorem history_default_label_witness :
    ((mkEnv cfgC4 stNoneInt).set 7 none).store.history
        = some ⟨⟨(mkEnv cfgC4 stNoneInt).store.state, "Unspecified"⟩
                  :: (StoreHistory.empty Int).undoStack, []⟩ :=
  (history_default_label (mkEnv cfgC4 stNoneInt) (StoreHistory.empty Int) (by decide)
    7 id id).1

/-- C5: `update(f, c)` is the same environment transformation as
`set(f(s), c)` where `s` is the state current at the time of the call — same
resulting state, same new history entry, same persistence write, same log. -/
theorem update_is_set_of_applied {TState : Type} (env : Env TState)
    (f : TState → TState) (c : Option String) :
    env.update f c = env.set (f env.store.state) c := by
  obtain ⟨⟨cfg, hist, inj, s0⟩, stg, lg⟩ := env
  cases hist <;> rfl

/-- C7: `undo` with history disabled or with an empty undo-stack, and
likewise `redo` with history disabled or with an empty redo-stack, leave the
store (state and history) and the durable storage unchanged; the attempt is
at most appended to the log.  Each operation is conditioned only on its own
stack, so the theorem covers redo right after a `set` (redo-stack empty,
undo-stack not) and undo after undoing the only command (undo-stack empty,
redo-stack not).  The embedding is a total function, so no exception is
possible. -/
theorem undo_redo_soft_failure {TState : Type} (fals : TState → Bool) (env : Env TState) :
    ((env.store.history = none
        ∨ ∃ h, env.store.history = some h ∧ h.undoStack = []) →
      (Env.undo fals env).store = env.store
      ∧ (Env.undo fals env).storage = env.storage
      ∧ ∃ t, (Env.undo fals env).logs = env.logs ++ t)
    ∧ ((env.store.history = none
        ∨ ∃ h, env.store.history = some h ∧ h.redoStack = []) →
      (Env.redo fals env).store = env.store
      ∧ (Env.redo fals env).storage = env.storage
      ∧ ∃ t, (Env.redo fals env).logs = env.logs ++ t) := by
  obtain ⟨⟨cfg, hist, inj, s0⟩, stg, lg⟩ := env
  constructor
  · intro hu
    rcases hu with hn | ⟨h, hh, hus⟩
    · simp only at hn
      subst hn
      exact ⟨Env.log_store _ _ _, Env.log_storage _ _ _, Env.log_logs _ _ _⟩
    · simp only at hh
      subst hh
      obtain ⟨us, rs⟩ := h
      simp only at hus
      subst hus
      simp only [Env.undo, StoreHistory.undo, jsTruthy]
      exact ⟨Env.log_store _ _ _, Env.log_storage _ _ _, Env.log_logs _ _ _⟩
  · intro hr
    rcases hr with hn | ⟨h, hh, hrs⟩
    · simp only at hn
      subst hn
      exact ⟨Env.log_store _ _ _, Env.log_storage _ _ _, Env.log_logs _ _ _⟩
    · simp only at hh
      subst hh
      obtain ⟨us, rs⟩ := h
      simp only at hrs
      subst hrs
      simp only [Env.redo, StoreHistory.redo, jsTruthy]
      exact ⟨Env.log_store _ _ _, Env.log_storage _ _ _, Env.log_logs _ _ _⟩

/-- A configuration with every optional feature left unset. -/
def cfgPlain : StoreConfig Int :=
  ⟨some "plain", 3, none, none, none, none, none⟩

/-- Witness for C7 at two concrete stores: `undo` on a store with history
disabled, and `redo` right after a `set` on a history-enabled store, where
the redo-stack is empty but the undo-stack holds one entry. -/
theorem undo_redo_soft_failure_witness :
    (Env.undo intFalsy (mkEnv cfgPlain stNoneInt)).store
        = (mkEnv cfgPlain stNoneInt).store
    ∧ (Env.redo intFalsy ((mkEnv cfgC1 stNoneInt).set 1 none)).store
        = ((mkEnv cfgC1 stNoneInt).set 1 none).store :=
  ⟨((undo_redo_soft_failure intFalsy (mkEnv cfgPlain stNoneInt)).1
      (Or.inl (by decide))).1,
   ((undo_redo_soft_failure intFalsy ((mkEnv cfgC1 stNoneInt).set 1 none)).2
      (Or.inr ⟨⟨[⟨0, "Unspecified"⟩], []⟩, by decide, rfl⟩)).1⟩

/-- The injector field produced by construction: present iff effects/queries
are enabled (store.ts lines 73-75). -/
theorem mkEnv_injector {TState : Type} (cfg : StoreConfig TState) (storage : Storage TState) :
    (mkEnv cfg storage).store.injector
      = (if cfg.enableEffectsAndQueries.getD false then some () else none) := by
  simp only [mkEnv, construct]
  split <;> rw [Env.log_store]

/-- C3: a store constructed with `enableEffectsAndQueries` disabled has no
execution context, so `runQuery` fails with the `ConfigurationError` of the
spec's taxonomy (the source forwards the absent `this.injector!` to the
external context runner, modelled from the spec's interface boundary). -/
theorem runQuery_without_context {TState TResult : Type} (cfg : StoreConfig TState)
    (storage : Storage TState) (q : StoreQuery TResult)
    (h : cfg.enableEffectsAndQueries.getD false = false) :
    (mkEnv cfg storage).store.runQuery q
      = Except.error StoreError.configurationError := by
  unfold Store.runQuery runInInjectionContext
  rw [mkEnv_injector, h]
  rfl

/-- Witness for C3 at a concrete store and query. -/
theorem runQuery_without_context_witness :
    (mkEnv cfgPlain stNoneInt).store.runQuery ⟨fun _ => (0 : Nat)⟩
      = Except.error StoreError.configurationError :=
  runQuery_without_context cfgPlain stNoneInt ⟨fun _ => (0 : Nat)⟩ (by decide)

/-- The resolved config a constructed store carries. -/
theorem mkEnv_config {TState : Type} (cfg : StoreConfig TState) (storage : Storage TState) :
    (mkEnv cfg storage).store.config = resolveConfig cfg := by
  simp only [mkEnv, construct]
  split <;> rw [Env.log_store]

/-- Construction does not write to the durable storage (the persistence
effect only fires on state changes). -/
theorem mkEnv_storage {TState : Type} (cfg : StoreConfig TState) (storage : Storage TState) :
    (mkEnv cfg storage).storage = storage := by
  simp only [mkEnv, construct]
  split <;> rw [Env.log_storage]

/-- The initial state of a constructed store: the persisted entry under the
resolved name when persistence is enabled and an entry exists, the configured
initial state otherwise (store.ts lines 77-94). -/
theorem mkEnv_state {TState : Type} (cfg : StoreConfig TState) (storage : Storage TState) :
    (mkEnv cfg storage).store.state
      = (if cfg.enableLocalStorageSync.getD false then
           (storage (resolveConfig cfg).name).getD cfg.initialState
         else cfg.initialState) := by
  simp only [mkEnv, construct]
  split <;> (rw [Env.log_store]; try rfl)

/-- The storage after a `set`: the new state saved under the store's name
when persistence is enabled, untouched otherwise. -/
theorem set_storage {TState : Type} (env : Env TState) (v : TState) (c : Option String) :
    (env.set v c).storage
      = (if env.store.config.enableLocalStorageSync then
           saveToStorage env.storage env.store.config.name v
         else env.storage) := by
  obtain ⟨⟨cfg, hist, inj, s0⟩, stg, lg⟩ := env
  cases hist <;>
    simp only [Env.set, Store.addToHistory, Env.commitState, Env.log_storage]

/-- A `set` does not change the store's resolved configuration. -/
theorem set_config {TState : Type} (env : Env TState) (v : TState) (c : Option String) :
    (env.set v c).store.config = env.store.config := by
  obtain ⟨⟨cfg, hist, inj, s0⟩, stg, lg⟩ := env
  cases hist <;>
    simp only [Env.set, Store.addToHistory, Env.commitState, Env.log_store]

/-- C8: with persistence enabled and no durable entry under the store's name,
construction uses the configured initial state; after one `set(v)`, a store
constructed with a configuration resolving to the same name initializes its
state to `v` (the persistence effect wrote `v` under the name, and the new
constructor loads it). -/
theorem persistence_roundtrip {TState : Type} (cfg cfg2 : StoreConfig TState)
    (storage : Storage TState)
    (h1 : cfg.enableLocalStorageSync.getD false = true)
    (h2 : cfg2.enableLocalStorageSync.getD false = true)
    (hempty : storage (resolveConfig cfg).name = none)
    (hname : (resolveConfig cfg2).name = (resolveConfig cfg).name)
    (v : TState) (c : Option String) :
    (mkEnv cfg storage).store.state = cfg.initialState
    ∧ (mkEnv cfg2 ((mkEnv cfg storage).set v c).storage).store.state = v := by
  constructor
  · rw [mkEnv_state, h1, if_pos rfl, hempty]
    rfl
  · rw [mkEnv_state, h2, if_pos rfl, set_storage, mkEnv_config]
    have hsync : (resolveConfig cfg).enableLocalStorageSync = true := h1
    rw [hsync, if_pos rfl, mkEnv_storage, hname, saveToStorage]
    simp

/-- A persistence-enabled configuration named "c8". -/
def cfgC8 : StoreConfig Int :=
  ⟨some "c8", 7, none, none, none, none, some true⟩

/-- Witness for C8 at a concrete store: empty backend gives the initial state
`7`; reconstruction after `set 42` gives `42`. -/
theorem persistence_roundtrip_witness :
    (mkEnv cfgC8 stNoneInt).store.state = cfgC8.initialState
    ∧ (mkEnv cfgC8 ((mkEnv cfgC8 stNoneInt).set 42 none).storage).store.state = 42 :=
  persistence_roundtrip cfgC8 cfgC8 stNoneInt (by decide) (by decide) rfl rfl 42 none

/-- C9: `clearPersistence` removes exactly the durable entry under the
store's name: the store (state, history, config) and the log are unchanged,
the entry under the store's name is gone, and every other key of the backend
is untouched. -/
theorem clearPersistence_only_entry {TState : Type} (env : Env TState) :
    (env.clearPersistence).store = env.store
    ∧ (env.clearPersistence).logs = env.logs
    ∧ (env.clearPersistence).storage env.store.config.name = none
    ∧ ∀ k, k ≠ env.store.config.name →
        (env.clearPersistence).storage k = env.storage k := by
  refine ⟨rfl, rfl, ?_, ?_⟩
  · simp [Env.clearPersistence, clearLocalStorage]
  · intro k hk
    simp [Env.clearPersistence, clearLocalStorage, hk]

/-- A backend holding entries for "c8" and "other". -/
def stTwoInt : Storage Int :=
  fun k => if k = "c8" then some 7 else if k = "other" then some 5 else none

/-- Witness for C9 at a concrete store: the entry under the store's own name
"c8" is removed, the unrelated entry under "other" and the in-memory state
survive. -/
theorem clearPersistence_only_entry_witness :
    ((mkEnv cfgC8 stTwoInt).clearPersistence).store = (mkEnv cfgC8 stTwoInt).store
    ∧ ((mkEnv cfgC8 stTwoInt).clearPersistence).storage "c8" = none
    ∧ ((mkEnv cfgC8 stTwoInt).clearPersistence).storage "other" = some 5 :=
  ⟨(clearPersistence_only_entry (mkEnv cfgC8 stTwoInt)).1,
   (clearPersistence_only_entry (mkEnv cfgC8 stTwoInt)).2.2.1,
   ((clearPersistence_only_entry (mkEnv cfgC8 stTwoInt)).2.2.2 "other" (by decide)).trans
     (by decide)⟩

/-- The mediator slot returned by construction is the one produced by the
`StoreBase` constructor. -/
theorem construct_snd {TState : Type} (cfg : StoreConfig TState)
    (storage : Storage TState) (g : Option Mediator) :
    (construct cfg storage g).2 = storeBaseConstruct (cfg.enableEvents.getD false) g := by
  simp only [construct]
  split <;> rfl

/-- The environment returned by construction does not depend on the mediator
slot. -/
theorem construct_fst {TState : Type} (cfg : StoreConfig TState)
    (storage : Storage TState) (g : Option Mediator) :
    (construct cfg storage g).1 = mkEnv cfg storage := by
  simp only [construct, mkEnv]
  split <;> rfl

/-- C10: with events disabled on both stores, construction leaves the global
mediator slot empty (no eager creation), yet `registerHandler` on one store
followed by `publish` on the other still succeeds — the static accessor
creates the mediator lazily — and the executed handler sources are exactly
the first store's name, showing the other store's handler ran.  Both
operations are total functions into plain tuples (no `Except`), so no
configuration error is possible. -/
theorem events_without_enableEvents (cfg1 cfg2 : StoreConfig Int)
    (st1 st2 : Storage Int)
    (h1 : cfg1.enableEvents.getD false = false)
    (h2 : cfg2.enableEvents.getD false = false)
    (e : String) (hid p : Nat) :
    (construct cfg1 st1 none).2 = none
    ∧ (Env.publish (construct cfg2 st2 (construct cfg1 st1 none).2).1
        ((Env.registerHandler (construct cfg1 st1 none).1
           (construct cfg2 st2 (construct cfg1 st1 none).2).2 e hid false).2.1)
        e p).2.2 = [(resolveConfig cfg1).name] := by
  have hg1 : (construct cfg1 st1 none).2 = none := by
    rw [construct_snd, storeBaseConstruct, h1]
    rfl
  have hg2 : (construct cfg2 st2 (construct cfg1 st1 none).2).2 = none := by
    rw [construct_snd, storeBaseConstruct, h2, hg1]
    rfl
  refine ⟨hg1, ?_⟩
  rw [hg2]
  simp only [Env.publish, Env.registerHandler, mediatorAccessor, Mediator.register,
    Mediator.publish, Mediator.empty, construct_fst, mkEnv_config]
  simp

/-- Witness for C10 at two concrete stores with events disabled. -/
theorem events_without_enableEvents_witness :
    (construct cfgPlain stNoneInt none).2 = none
    ∧ (Env.publish (construct cfgC1 stNoneInt (construct cfgPlain stNoneInt none).2).1
        ((Env.registerHandler (construct cfgPlain stNoneInt none).1
           (construct cfgC1 stNoneInt (construct cfgPlain stNoneInt none).2).2
           "evt" 1 false).2.1)
        "evt" 9).2.2 = [(resolveConfig cfgPlain).name] :=
  events_without_enableEvents cfgPlain cfgC1 stNoneInt stNoneInt
    (by decide) (by decide) "evt" 1 9

end Signalstory
